import Mathlib

/-!
Verification of the SmartPay frontend (src/frontend_app.py): a shallow
embedding of the prediction submission handler, the PDF report generator and
the two analytics tab fetchers, with theorems settling the specification's
claims about them.

Conventions of the embedding:
* decoded JSON bodies are values of `Json`; the HTTP library's parser is
  external, so a response carries the *result* of `resp.json()` as an
  `Except String Json` together with `resp.text`;
* a Python exception that the script does not catch is an `Except.error`
  carrying the exception's message; code wrapped in `try/except` is a total
  function whose `except` branch is applied to that message;
* machine floats are modelled as rationals (`Rat`); the salary values the
  claims mention are exact in that model.
-/

namespace PaySmart

/-- Decoded JSON values, as handed back by the HTTP library (`resp.json()`). -/
inductive Json where
  | jnum (q : Rat)
  | jstr (s : String)
  | jbool (b : Bool)
  | jnull
  | jarr (elems : List Json)
  | jobj (fields : List (String × Json))

/-- Python `d.get(k, default)` as used at lines 169, 239-243 and 269: returns
the first binding of `k` (model dicts have unique keys), the default when
absent, and raises `AttributeError` when the receiver is not a dict (for
example a 200 body that decodes to a JSON array or string). -/
def pyGet (j : Json) (k : String) (dflt : Json) : Except String Json :=
  match j with
  | .jobj fields => .ok ((fields.lookup k).getD dflt)
  | _ => .error "AttributeError: object has no attribute get"

/-- Numeric-string grammar accepted by Python `float(str)`, restricted to an
optional sign, integer digits and an optional fraction (exponents, `inf`,
`nan` and surrounding whitespace are not modelled; no claim depends on them). -/
def parsePyFloat (s : String) : Option Rat :=
  let cs := s.toList
  let signed : Bool × List Char :=
    match cs with
    | '-' :: rest => (true, rest)
    | '+' :: rest => (false, rest)
    | _ => (false, cs)
  let ip := signed.2.takeWhile Char.isDigit
  let rest := signed.2.dropWhile Char.isDigit
  let fp : Option (List Char) :=
    match rest with
    | [] => some []
    | '.' :: fr => if fr.all Char.isDigit then some fr else none
    | _ => none
  match fp with
  | none => none
  | some fr =>
    if ip.length + fr.length = 0 then none
    else
      let n : Nat := (ip ++ fr).foldl (fun a c => a * 10 + (c.toNat - 48)) 0
      let q : Rat := (n : Rat) / ((10 : Rat) ^ fr.length)
      some (if signed.1 then -q else q)

/-- Python `float(v)` as applied at line 169: numbers pass through, booleans
are ints, numeric strings parse, anything else raises. -/
def pyFloat (v : Json) : Except String Rat :=
  match v with
  | .jnum q => .ok q
  | .jbool b => .ok (if b then 1 else 0)
  | .jstr s =>
    match parsePyFloat s with
    | some q => .ok q
    | none => .error ("ValueError: could not convert string to float: " ++ s)
  | .jnull => .error "TypeError: float() argument must not be None"
  | .jarr _ => .error "TypeError: float() argument must not be a list"
  | .jobj _ => .error "TypeError: float() argument must not be a dict"

/-- Line 16. -/
def BACKEND_URL : String := "https://smartpay-ai-backend.onrender.com"

/-- Lines 17-20: `API_KEY = None`, so only the content type header is set. -/
def HEADERS : List (String × String) := [("Content-Type", "application/json")]

/-- The six form values a submission reads (lines 127-132).  `st.number_input`
with integer bounds and `step=1`, and the integer slider, yield integers. -/
structure FormState where
  age : Int
  education : String
  job_title : String
  hours_per_week : Int
  gender : String
  marital_status : String

/-- Line 128: the education selectbox options, byte for byte (the middle two
contain U+2019, a typographic apostrophe). -/
def educationOptions : List String :=
  ["High School", "Bachelor’s", "Master’s", "PhD", "Other"]

/-- Line 131. -/
def genderOptions : List String := ["Male", "Female", "Other"]

/-- Line 132. -/
def maritalOptions : List String := ["Single", "Married", "Divorced", "Other"]

/-- The form states the widgets at lines 127-132 can produce: the number input
clamps age to 17-80, the slider clamps hours to 10-100, each selectbox yields
one of its options, and the job title text input is unconstrained. -/
def formProducible (f : FormState) : Bool :=
  decide (17 ≤ f.age) && decide (f.age ≤ 80) &&
  decide (f.education ∈ educationOptions) &&
  decide (10 ≤ f.hours_per_week) && decide (f.hours_per_week ≤ 100) &&
  decide (f.gender ∈ genderOptions) &&
  decide (f.marital_status ∈ maritalOptions)

/-- The payload dict built at lines 147-154, in insertion order.  `int(...)`
on the already-integer age and hours is the identity. -/
def payload (f : FormState) : List (String × Json) :=
  [ ("age", .jnum (f.age : Rat)),
    ("education", .jstr f.education),
    ("job_title", .jstr f.job_title),
    ("hours_per_week", .jnum (f.hours_per_week : Rat)),
    ("gender", .jstr f.gender),
    ("marital_status", .jstr f.marital_status) ]

/-- An outgoing HTTP request. -/
structure HttpRequest where
  method : String
  url : String
  body : List (String × Json)
  headers : List (String × String)
  timeoutSec : Nat

/-- The request line 159 sends: `requests.post(f"{BACKEND_URL}/predict",
json=payload, headers=HEADERS, timeout=20)`. -/
def predictRequest (f : FormState) : HttpRequest :=
  { method := "POST"
    url := BACKEND_URL ++ "/predict"
    body := payload f
    headers := HEADERS
    timeoutSec := 20 }

/-- What the caller observes of a completed HTTP response. -/
structure HttpResp where
  status : Nat
  jsonBody : Except String Json
  text : String

/-- Result of the `requests.post` call at line 159: either a raised
`requests.exceptions.RequestException` (connection refused, timeout, DNS
failure, caught at line 160) or a response. -/
inductive TransportResult where
  | exn (msg : String)
  | resp (r : HttpResp)

/-- Body attached to an API error message (lines 220-223): the decoded JSON
when `resp.json()` succeeds, the raw text otherwise. -/
inductive ApiBody where
  | structured (j : Json)
  | raw (t : String)

/-- The typed outcomes the submission handler can render (lines 161, 171,
215, 217, 224). -/
inductive Outcome where
  | connectionError (cause : String)
  | success (salary : Rat)
  | authError
  | serverError
  | apiError (code : Nat) (body : ApiBody)

/-- The submission handler's outcome classification, lines 158-224.  The
`except` at line 160 catches only the transport call; on the 200 branch
`resp.json()` (line 168) and `float(...)` (line 169) run unguarded, so their
exceptions escape as `Except.error`. -/
def predictOutcome (t : TransportResult) : Except String Outcome :=
  match t with
  | .exn e => .ok (.connectionError e)
  | .resp r =>
    if r.status = 200 then do
      let data ← r.jsonBody
      let v ← pyGet data "predicted_salary_usd" (.jnum 0)
      let salary ← pyFloat v
      pure (.success salary)
    else if r.status = 401 ∨ r.status = 403 then .ok .authError
    else if 500 ≤ r.status then .ok .serverError
    else
      match r.jsonBody with
      | .ok j => .ok (.apiError r.status (.structured j))
      | .error _ => .ok (.apiError r.status (.raw r.text))

/-- Python `str(v)` as interpolated into the report's `f" - {k}: {v}"` lines
(line 204): strings print bare, integral numbers print as integers.  Payload
values are only strings and integers, so the remaining arms only keep the
function total. -/
def pyStr (v : Json) : String :=
  match v with
  | .jstr s => s
  | .jnum q => if q.den = 1 then toString q.num else toString q
  | .jbool b => if b then "True" else "False"
  | .jnull => "None"
  | .jarr _ => "[...]"
  | .jobj _ => "{...}"

/-- Thousands separators: a comma every three digits from the right
(digit list of a non-negative integer, most significant first). -/
def insertCommas (ds : List Char) : List Char :=
  ((List.range ds.reverse.length).zip ds.reverse).foldl
    (fun acc ic =>
      if ic.1 ≠ 0 ∧ ic.1 % 3 = 0 then ic.2 :: ',' :: acc else ic.2 :: acc) []

/-- Python's `f"{x:,.2f}"` format (lines 171, 206): two decimal places and
thousands separators.  Rounding of the exact rational to cents stands in for
the float rounding. -/
def fmtMoney (q : Rat) : String :=
  let cents : Int := round (q * 100)
  let n := cents.natAbs
  let frac := n % 100
  let fracDigits := if frac < 10 then "0" ++ toString frac else toString frac
  (if cents < 0 then "-" else "") ++
    String.mk (insertCommas (toString (n / 100)).toList) ++ "." ++ fracDigits

/-- The text lines `make_pdf` (lines 193-209) writes into the document, in
order: title (line 197), timestamp line (line 200), `"Inputs:"` (line 202),
one ` - key: value` line per payload entry in dict order (lines 203-204), and
the salary line (line 206).  The wall-clock timestamp is the `ts` argument. -/
def makePdfLines (p : List (String × Json)) (salary : Rat) (ts : String) : List String :=
  [ "SmartPay — Salary Prediction Report",
    "Generated: " ++ ts,
    "Inputs:" ]
  ++ p.map (fun kv => " - " ++ kv.1 ++ ": " ++ pyStr kv.2)
  ++ [ "Predicted annual salary (USD): $" ++ fmtMoney salary ]

/-- Modelled from the spec: the FPDF library is not part of this repository.
The report uses a built-in core font (`Arial`, lines 196 and 199), whose
document encoding is latin-1; per the spec's stated failure mode ("encoding
error on an unexpected character ... that the document encoding cannot
represent"), text is representable exactly when every character is in
latin-1's range. -/
def latin1Representable (s : String) : Bool :=
  s.toList.all (fun c => c.toNat ≤ 255)

/-- `make_pdf` (lines 193-209): builds the document from the payload, the
salary and the timestamp, then renders it.  Rendering raises
`UnicodeEncodeError` when any written line holds a character the document
encoding cannot represent (modelled from the spec, see
`latin1Representable`); the function has no handler, so the error escapes.
On success, the emitted document holds exactly the constructed lines. -/
def make_pdf (p : List (String × Json)) (salary : Rat) (ts : String) :
    Except String (List String) :=
  let lines := makePdfLines p salary ts
  if lines.all latin1Representable then .ok lines else .error "UnicodeEncodeError: latin-1"

/-- The report stage of one submission: lines 211-213 run `make_pdf(payload,
salary)` in the 200 branch only, immediately after the success outcome is
rendered, with the very payload the request sent.  `none` means no report was
attempted; `some` carries the (possibly escaping) generation result. -/
def submissionReport (f : FormState) (t : TransportResult) (ts : String) :
    Option (Except String (List String)) :=
  match predictOutcome t with
  | .ok (.success q) => some (make_pdf (payload f) q ts)
  | _ => none

/-- Result of a `requests.get` call: raised transport exception or response. -/
inductive GetResult where
  | exn (msg : String)
  | resp (status : Nat) (jsonBody : Except String Json)

/-- What the Live Analysis tab renders (lines 234-261): the three metric
cards and the bar chart, or the single informational unavailable state. -/
inductive AnalyzeView where
  | metrics (recordCount avgSalary maxSalary : Rat) (minSalary : Json)
  | unavailable (cause : String)

/-- A value interpolated under a numeric format spec (`f"{rec:,}"`,
`f"${avg:,.2f}"`, lines 245-247): numbers format; booleans format as ints
(Python `bool` subclasses `int`); anything else raises. -/
def pyFormatNum (v : Json) : Except String Rat :=
  match v with
  | .jnum q => .ok q
  | .jbool b => .ok (if b then 1 else 0)
  | _ => .error "ValueError: invalid format specifier for value"

/-- Body of the Live Analysis `try` block (lines 237-259): fetch `/analyze`;
on 200 decode the body, take `summary` (default `{}`), read the four fields
with defaults `0`/`0.0`, and render (the three metric cards raise on
non-numeric values; `min_salary` only feeds the chart data frame, so it
passes through unformatted); on any other status render the warning state.
An `Except.error` is an exception reaching the `except` at line 260. -/
def analyzeBody (g : GetResult) : Except String AnalyzeView :=
  match g with
  | .exn e => .error e
  | .resp status body =>
    if status = 200 then do
      let j ← body
      let s ← pyGet j "summary" (.jobj [])
      let recJ ← pyGet s "record_count" (.jnum 0)
      let avgJ ← pyGet s "average_salary" (.jnum 0)
      let mxJ ← pyGet s "max_salary" (.jnum 0)
      let mnJ ← pyGet s "min_salary" (.jnum 0)
      let recQ ← pyFormatNum recJ
      let avgQ ← pyFormatNum avgJ
      let mxQ ← pyFormatNum mxJ
      pure (.metrics recQ avgQ mxQ mnJ)
    else .ok (.unavailable ("Analysis service not available: " ++ toString status))

/-- The Live Analysis tab (lines 236-261): the `try/except Exception` wrapper
makes the tab total — every raised error collapses to the informational
unavailable state with the exception's description. -/
def analyzeTab (g : GetResult) : AnalyzeView :=
  match analyzeBody g with
  | .ok v => v
  | .error e => .unavailable ("Analysis unavailable: " ++ e)

/-- What the Model Insights tab renders (lines 264-281). -/
inductive ExplainView where
  | table (features : List Json)
  | noFeatures
  | unavailable (cause : String)

/-- Python truthiness of the value bound to `tf` at line 269 (`if tf:`). -/
def pyTruthy (v : Json) : Bool :=
  match v with
  | .jnum q => q != 0
  | .jstr s => s != ""
  | .jbool b => b
  | .jnull => false
  | .jarr xs => !xs.isEmpty
  | .jobj fs => !fs.isEmpty

/-- Body of the Model Insights `try` block (lines 267-279): fetch `/explain`;
on 200 decode the body, take `top_features` (default `[]`); a falsy value
renders the no-features note, a truthy list of objects carrying both chart
columns renders the table, and any other truthy shape makes the data frame or
`px.bar` call raise (approximating the pandas/plotly behaviour); on any other
status render the warning state. -/
def explainBody (g : GetResult) : Except String ExplainView :=
  match g with
  | .exn e => .error e
  | .resp status body =>
    if status = 200 then do
      let j ← body
      let tf ← pyGet j "top_features" (.jarr [])
      if pyTruthy tf then
        match tf with
        | .jarr xs =>
          if xs.all (fun x =>
              match x with
              | .jobj fs => (fs.lookup "feature").isSome && (fs.lookup "importance").isSome
              | _ => false)
          then pure (.table xs)
          else .error "ValueError: missing chart column"
        | _ => .error "ValueError: DataFrame constructor called with bad data"
      else pure .noFeatures
    else .ok (.unavailable ("Explainability endpoint returned: " ++ toString status))

/-- The Model Insights tab (lines 266-281), total for the same reason as
`analyzeTab`. -/
def explainTab (g : GetResult) : ExplainView :=
  match explainBody g with
  | .ok v => v
  | .error e => .unavailable ("Explainability unavailable: " ++ e)

/-- The education enum value names as the specification's data model spells
them; comparison definition taken from the claim's words, to be measured
against `educationOptions` from the source. -/
def specEducationNames : List String :=
  ["HighSchool", "Bachelors", "Masters", "PhD", "Other"]

/-- Reduction of `Except` bind on a success value (do-notation helper). -/
theorem except_bind_ok {α β : Type} (a : α) (g : α → Except String β) :
    (Except.ok a >>= g : Except String β) = g a := rfl

/-- Reduction of `Except` bind on an escaping error (do-notation helper). -/
theorem except_bind_error {α β : Type} (e : String) (g : α → Except String β) :
    (Except.error e >>= g : Except String β) = Except.error e := rfl

/-- Reduction of `Except` map on a success value (do-notation helper). -/
theorem except_map_ok {α β : Type} (g : α → β) (a : α) :
    (g <$> (Except.ok a : Except String α)) = Except.ok (g a) := rfl

/-- Reduction of `Except` map on an escaping error (do-notation helper). -/
theorem except_map_error {α β : Type} (g : α → β) (e : String) :
    (g <$> (Except.error e : Except String α)) = Except.error e := rfl

/-- Claim C1, counterexample: a 200 response whose body is not decodable JSON
does not yield the Success outcome (nor any outcome): `resp.json()` at line
168 raises and nothing catches it, so the claim's "status 200 yields Success"
fails on this exchange. -/
theorem c1_counterexample :
    predictOutcome (.resp ⟨200, .error "Expecting value: line 1 column 1 (char 0)", "<html>"⟩)
      = .error "Expecting value: line 1 column 1 (char 0)" := rfl

/-- Claim C1 (amended): the outcome of a submission is determined by the HTTP
exchange as claimed — transport failure yields ConnectionError with the cause,
401/403 yields AuthError, status ≥ 500 yields ServerError, every other
non-200 status yields ApiError with the status code and the decoded body when
decodable, raw text otherwise — except on the 200 branch, which yields
Success with the converted salary only when the body decodes and the salary
value converts; an undecodable 200 body escapes as an uncaught exception. -/
theorem c1_amended_outcome_taxonomy :
    (∀ e, predictOutcome (.exn e) = .ok (.connectionError e)) ∧
    (∀ r : HttpResp, r.status = 200 → ∀ data, r.jsonBody = .ok data →
      ∀ v, pyGet data "predicted_salary_usd" (.jnum 0) = .ok v →
      ∀ q, pyFloat v = .ok q →
      predictOutcome (.resp r) = .ok (.success q)) ∧
    (∀ r : HttpResp, r.status = 401 ∨ r.status = 403 →
      predictOutcome (.resp r) = .ok .authError) ∧
    (∀ r : HttpResp, 500 ≤ r.status → predictOutcome (.resp r) = .ok .serverError) ∧
    (∀ r : HttpResp, r.status ≠ 200 → r.status ≠ 401 → r.status ≠ 403 → r.status < 500 →
      (∀ j, r.jsonBody = .ok j →
        predictOutcome (.resp r) = .ok (.apiError r.status (.structured j))) ∧
      (∀ e, r.jsonBody = .error e →
        predictOutcome (.resp r) = .ok (.apiError r.status (.raw r.text)))) ∧
    (∀ r : HttpResp, r.status = 200 → ∀ e, r.jsonBody = .error e →
      predictOutcome (.resp r) = .error e) := by
  refine ⟨fun e => rfl, ?_, ?_, ?_, ?_, ?_⟩
  · intro r h200 data hb v hg q hf
    simp [predictOutcome, h200, hb, hg, hf, except_bind_ok, except_map_ok]
  · intro r h
    rcases h with h | h <;> simp [predictOutcome, h]
  · intro r h
    have h1 : r.status ≠ 200 := by omega
    have h2 : r.status ≠ 401 := by omega
    have h3 : r.status ≠ 403 := by omega
    simp [predictOutcome, h1, h2, h3, h]
  · intro r h1 h2 h3 h4
    have h5 : ¬ 500 ≤ r.status := by omega
    exact ⟨fun j hj => by simp [predictOutcome, h1, h2, h3, h5, hj],
           fun e he => by simp [predictOutcome, h1, h2, h3, h5, he]⟩
  · intro r h200 e he
    simp [predictOutcome, h200, he, except_bind_error]

/-- Claim C1 (amended), witness: the taxonomy evaluated on one concrete
exchange of each kind. -/
theorem c1_amended_outcome_taxonomy_witness :
    predictOutcome (.exn "timed out") = .ok (.connectionError "timed out") ∧
    predictOutcome (.resp ⟨200, .ok (.jobj [("predicted_salary_usd", .jnum 85000)]), ""⟩)
      = .ok (.success 85000) ∧
    predictOutcome (.resp ⟨401, .ok .jnull, ""⟩) = .ok .authError ∧
    predictOutcome (.resp ⟨500, .error "err", ""⟩) = .ok .serverError ∧
    predictOutcome (.resp ⟨404, .error "nope", "missing"⟩)
      = .ok (.apiError 404 (.raw "missing")) ∧
    predictOutcome (.resp ⟨200, .error "Expecting value", "<html>"⟩)
      = .error "Expecting value" :=
  ⟨c1_amended_outcome_taxonomy.1 "timed out",
   c1_amended_outcome_taxonomy.2.1 ⟨200, .ok (.jobj [("predicted_salary_usd", .jnum 85000)]), ""⟩
     rfl (.jobj [("predicted_salary_usd", .jnum 85000)]) rfl (.jnum 85000) rfl 85000 rfl,
   c1_amended_outcome_taxonomy.2.2.1 ⟨401, .ok .jnull, ""⟩ (Or.inl rfl),
   c1_amended_outcome_taxonomy.2.2.2.1 ⟨500, .error "err", ""⟩ (by decide),
   (c1_amended_outcome_taxonomy.2.2.2.2.1 ⟨404, .error "nope", "missing"⟩
     (by decide) (by decide) (by decide) (by decide)).2 "nope" rfl,
   c1_amended_outcome_taxonomy.2.2.2.2.2 ⟨200, .error "Expecting value", "<html>"⟩
     rfl "Expecting value" rfl⟩

/-- Claim C2: the request a submission sends is a POST to
`{backend}/predict` whose body holds exactly the six documented fields, in
dict insertion order with no duplicates, each bound to the corresponding form
value unchanged (age and hours as integers, the rest as the entered
strings). -/
theorem c2_predict_request_exact (f : FormState) :
    (predictRequest f).method = "POST" ∧
    (predictRequest f).url = "https://smartpay-ai-backend.onrender.com/predict" ∧
    (predictRequest f).body.map Prod.fst
      = ["age", "education", "job_title", "hours_per_week", "gender", "marital_status"] ∧
    ((predictRequest f).body.map Prod.fst).Nodup ∧
    (predictRequest f).body.lookup "age" = some (.jnum (f.age : Rat)) ∧
    (predictRequest f).body.lookup "education" = some (.jstr f.education) ∧
    (predictRequest f).body.lookup "job_title" = some (.jstr f.job_title) ∧
    (predictRequest f).body.lookup "hours_per_week" = some (.jnum (f.hours_per_week : Rat)) ∧
    (predictRequest f).body.lookup "gender" = some (.jstr f.gender) ∧
    (predictRequest f).body.lookup "marital_status" = some (.jstr f.marital_status) :=
  ⟨rfl, rfl, rfl,
   (by decide :
     (["age", "education", "job_title", "hours_per_week", "gender", "marital_status"] :
       List String).Nodup),
   rfl, rfl, rfl, rfl, rfl, rfl⟩

/-- Claim C3: a 200 response whose decoded body is an object lacking
`predicted_salary_usd` yields the Success outcome carrying salary 0, not a
failure — `data.get` defaults to `0` and `float(0)` is `0.0`. -/
theorem c3_missing_salary_yields_success_zero (r : HttpResp) (fs : List (String × Json))
    (h200 : r.status = 200) (hb : r.jsonBody = .ok (.jobj fs))
    (hmiss : fs.lookup "predicted_salary_usd" = none) :
    predictOutcome (.resp r) = .ok (.success 0) := by
  simp [predictOutcome, h200, hb, pyGet, hmiss, pyFloat, except_bind_ok, except_map_ok]

/-- Claim C3, witness: a concrete 200 body without the salary field. -/
theorem c3_missing_salary_yields_success_zero_witness :
    predictOutcome (.resp ⟨200, .ok (.jobj [("note", .jstr "ok")]), ""⟩)
      = .ok (.success 0) :=
  c3_missing_salary_yields_success_zero _ _ rfl rfl rfl

/-- Claim C4: report generation is attempted exactly when the submission's
outcome is Success, it is handed the very payload the request sent, and the
input fields enumerated in the constructed document are the form values,
unmodified and in request order. -/
theorem c4_report_iff_success_fields_match (f : FormState) (t : TransportResult) (ts : String) :
    ((submissionReport f t ts).isSome = true ↔ ∃ q, predictOutcome t = .ok (.success q)) ∧
    (∀ q, predictOutcome t = .ok (.success q) →
      submissionReport f t ts = some (make_pdf (payload f) q ts) ∧
      ((makePdfLines (payload f) q ts).drop 3).take 6 =
        [" - age: " ++ toString f.age,
         " - education: " ++ f.education,
         " - job_title: " ++ f.job_title,
         " - hours_per_week: " ++ toString f.hours_per_week,
         " - gender: " ++ f.gender,
         " - marital_status: " ++ f.marital_status] ∧
      (predictRequest f).body = payload f) := by
  constructor
  · constructor
    · intro h
      unfold submissionReport at h
      split at h
      · next q heq => exact ⟨q, heq⟩
      · simp at h
    · rintro ⟨q, hq⟩
      simp [submissionReport, hq]
  · intro q hq
    refine ⟨by simp [submissionReport, hq], ?_, rfl⟩
    simp [makePdfLines, payload, pyStr, Rat.den_intCast, Rat.num_intCast]

/-- Claim C4, witness: a concrete successful exchange attempts the report with
the posted payload. -/
theorem c4_report_iff_success_fields_match_witness :
    submissionReport ⟨28, "PhD", "Software Engineer", 40, "Male", "Single"⟩
        (.resp ⟨200, .ok (.jobj [("predicted_salary_usd", .jnum 85000)]), ""⟩)
        "2024-01-01 00:00:00"
      = some (make_pdf (payload ⟨28, "PhD", "Software Engineer", 40, "Male", "Single"⟩)
          85000 "2024-01-01 00:00:00") ∧
    ((makePdfLines (payload ⟨28, "PhD", "Software Engineer", 40, "Male", "Single"⟩)
        85000 "2024-01-01 00:00:00").drop 3).take 6 =
      [" - age: 28", " - education: PhD", " - job_title: Software Engineer",
       " - hours_per_week: 40", " - gender: Male", " - marital_status: Single"] := by
  have h := (c4_report_iff_success_fields_match
      ⟨28, "PhD", "Software Engineer", 40, "Male", "Single"⟩
      (.resp ⟨200, .ok (.jobj [("predicted_salary_usd", .jnum 85000)]), ""⟩)
      "2024-01-01 00:00:00").2 85000 rfl
  exact ⟨h.1, h.2.1.trans rfl⟩

/-- Claim C5, counterexample: a 200 response whose `predicted_salary_usd` is
present but not convertible to a number does not evaluate to any outcome
value — `float(...)` at line 169 raises and the fault escapes unhandled. -/
theorem c5_counterexample :
    predictOutcome (.resp ⟨200, .ok (.jobj [("predicted_salary_usd", .jstr "n/a")]), ""⟩)
      = .error "ValueError: could not convert string to float: n/a" := rfl

/-- Claim C5 (amended): transport failures and every non-200 status evaluate
to a representable outcome value, and a 200 response whose body is an object
with a numeric (or absent, defaulting to 0) salary field yields Success; but
the 200 decode path is unguarded, so an undecodable body, a non-object body,
or a non-convertible salary value escapes as an unhandled fault (as does a
report-generation failure downstream). -/
theorem c5_amended_fault_surface :
    (∀ e, (predictOutcome (.exn e)).isOk = true) ∧
    (∀ r : HttpResp, r.status ≠ 200 → (predictOutcome (.resp r)).isOk = true) ∧
    (∀ r : HttpResp, r.status = 200 → ∀ fs, r.jsonBody = .ok (.jobj fs) →
      ∀ q : Rat, (fs.lookup "predicted_salary_usd").getD (.jnum 0) = .jnum q →
      predictOutcome (.resp r) = .ok (.success q)) := by
  refine ⟨fun e => rfl, ?_, ?_⟩
  · intro r h
    simp only [predictOutcome]
    rw [if_neg h]
    split
    · rfl
    · split
      · rfl
      · cases r.jsonBody <;> rfl
  · intro r h200 fs hb q hv
    simp [predictOutcome, h200, hb, pyGet, hv, pyFloat, except_bind_ok, except_map_ok]

/-- Claim C5 (amended), witness: each conjunct at a concrete exchange. -/
theorem c5_amended_fault_surface_witness :
    (predictOutcome (.exn "dns failure")).isOk = true ∧
    (predictOutcome (.resp ⟨418, .error "soup", "teapot"⟩)).isOk = true ∧
    predictOutcome (.resp ⟨200, .ok (.jobj [("predicted_salary_usd", .jnum 123)]), ""⟩)
      = .ok (.success 123) :=
  ⟨c5_amended_fault_surface.1 "dns failure",
   c5_amended_fault_surface.2.1 ⟨418, .error "soup", "teapot"⟩ (by decide),
   c5_amended_fault_surface.2.2 ⟨200, .ok (.jobj [("predicted_salary_usd", .jnum 123)]), ""⟩
     rfl [("predicted_salary_usd", .jnum 123)] rfl 123 rfl⟩

/-- Claim C6, counterexample: on a successful prediction for a job title
containing U+2603 (not representable in the document encoding), document
construction fails and the failure escapes as a raw unhandled exception value
— the program has no ReportGenerationError outcome, `make_pdf` has no error
handling, so no distinct typed outcome surfaces. -/
theorem c6_counterexample :
    submissionReport ⟨28, "PhD", "Data ☃ Engineer", 40, "Male", "Single"⟩
        (.resp ⟨200, .ok (.jobj [("predicted_salary_usd", .jnum 85000)]), ""⟩)
        "2024-01-01 00:00:00"
      = some (.error "UnicodeEncodeError: latin-1") := rfl

/-- Claim C6 (amended): a document-construction failure propagates as an
unhandled exception rather than as any distinct typed outcome, and no
truncated or corrupted document is emitted (the generation result is the
error alone).  In fact every generation fails under the modelled core-font
encoding, because the fixed title written at line 197 itself contains U+2014;
the success branch nevertheless always hands `make_pdf`'s result
— whatever it is — to the download step unchecked. -/
theorem c6_amended_failure_escapes (p : List (String × Json)) (s : Rat) (ts : String) :
    make_pdf p s ts = .error "UnicodeEncodeError: latin-1" ∧
    (∀ f : FormState, ∀ t q, predictOutcome t = .ok (.success q) →
      submissionReport f t ts = some (make_pdf (payload f) q ts)) := by
  constructor
  · have htitle : latin1Representable "SmartPay — Salary Prediction Report" = false := by decide
    simp [make_pdf, makePdfLines, htitle]
  · intro f t q hq
    simp [submissionReport, hq]

/-- Claim C6 (amended), witness: both conjuncts at a concrete input. -/
theorem c6_amended_failure_escapes_witness :
    make_pdf (payload ⟨28, "PhD", "Data ☃ Engineer", 40, "Male", "Single"⟩)
        85000 "2024-01-01 00:00:00" = .error "UnicodeEncodeError: latin-1" ∧
    submissionReport ⟨28, "PhD", "Data ☃ Engineer", 40, "Male", "Single"⟩
        (.resp ⟨200, .ok (.jobj [("predicted_salary_usd", .jnum 85000)]), ""⟩)
        "2024-01-01 00:00:00"
      = some (make_pdf (payload ⟨28, "PhD", "Data ☃ Engineer", 40, "Male", "Single"⟩)
          85000 "2024-01-01 00:00:00") :=
  ⟨(c6_amended_failure_escapes
      (payload ⟨28, "PhD", "Data ☃ Engineer", 40, "Male", "Single"⟩)
      85000 "2024-01-01 00:00:00").1,
   (c6_amended_failure_escapes [] 0 "2024-01-01 00:00:00").2
     ⟨28, "PhD", "Data ☃ Engineer", 40, "Male", "Single"⟩
     (.resp ⟨200, .ok (.jobj [("predicted_salary_usd", .jnum 85000)]), ""⟩) 85000 rfl⟩

/-- Claim C7: the constructed document enumerates the input fields in exactly
the order age, education, job_title, hours_per_week, gender, marital_status,
and two constructions with identical input and salary agree line for line
except at the timestamp line (index 1). -/
theorem c7_field_order_and_timestamp_stability (f : FormState) (s : Rat) (t1 t2 : String) :
    ((makePdfLines (payload f) s t1).drop 3).take 6 =
      [" - age: " ++ toString f.age,
       " - education: " ++ f.education,
       " - job_title: " ++ f.job_title,
       " - hours_per_week: " ++ toString f.hours_per_week,
       " - gender: " ++ f.gender,
       " - marital_status: " ++ f.marital_status] ∧
    (makePdfLines (payload f) s t1).length = (makePdfLines (payload f) s t2).length ∧
    (∀ i, i ≠ 1 → (makePdfLines (payload f) s t1)[i]? = (makePdfLines (payload f) s t2)[i]?) := by
  refine ⟨?_, rfl, ?_⟩
  · simp [makePdfLines, payload, pyStr, Rat.den_intCast, Rat.num_intCast]
  · intro i hi
    match i, hi with
    | 0, _ => rfl
    | 1, hi => exact absurd rfl hi
    | (k + 2), _ => rfl

/-- Claim C7, witness: order and stability on one concrete input and two
timestamps. -/
theorem c7_field_order_and_timestamp_stability_witness :
    ((makePdfLines (payload ⟨28, "PhD", "Software Engineer", 40, "Male", "Single"⟩)
        85432.1 "2024-01-01 00:00:00").drop 3).take 6 =
      [" - age: 28", " - education: PhD", " - job_title: Software Engineer",
       " - hours_per_week: 40", " - gender: Male", " - marital_status: Single"] ∧
    (makePdfLines (payload ⟨28, "PhD", "Software Engineer", 40, "Male", "Single"⟩)
        85432.1 "2024-01-01 00:00:00")[0]?
      = (makePdfLines (payload ⟨28, "PhD", "Software Engineer", 40, "Male", "Single"⟩)
          85432.1 "2025-06-30 12:34:56")[0]? ∧
    (makePdfLines (payload ⟨28, "PhD", "Software Engineer", 40, "Male", "Single"⟩)
        85432.1 "2024-01-01 00:00:00")[9]?
      = (makePdfLines (payload ⟨28, "PhD", "Software Engineer", 40, "Male", "Single"⟩)
          85432.1 "2025-06-30 12:34:56")[9]? := by
  have h := c7_field_order_and_timestamp_stability
      ⟨28, "PhD", "Software Engineer", 40, "Male", "Single"⟩
      85432.1 "2024-01-01 00:00:00" "2025-06-30 12:34:56"
  exact ⟨h.1.trans rfl, h.2.2 0 (by decide), h.2.2 9 (by decide)⟩

/-- Claim C8: for both analytics fetches, a non-200 status and every raised
error (transport failure, undecodable body, or any exception inside the
block) collapse to the unavailable state carrying a human-readable cause, and
the tabs are total — every fetch result renders as one of the tab's view
constructors, never as an escaping fault. -/
theorem c8_analytics_collapse_never_raise :
    (∀ e, analyzeTab (.exn e) = .unavailable ("Analysis unavailable: " ++ e)) ∧
    (∀ st b, st ≠ 200 →
      analyzeTab (.resp st b) = .unavailable ("Analysis service not available: " ++ toString st)) ∧
    (∀ e, analyzeTab (.resp 200 (.error e)) = .unavailable ("Analysis unavailable: " ++ e)) ∧
    (∀ e, explainTab (.exn e) = .unavailable ("Explainability unavailable: " ++ e)) ∧
    (∀ st b, st ≠ 200 →
      explainTab (.resp st b)
        = .unavailable ("Explainability endpoint returned: " ++ toString st)) ∧
    (∀ e, explainTab (.resp 200 (.error e)) = .unavailable ("Explainability unavailable: " ++ e)) ∧
    (∀ g, (∃ c, analyzeTab g = .unavailable c) ∨
          (∃ a b c d, analyzeTab g = .metrics a b c d)) ∧
    (∀ g, (∃ c, explainTab g = .unavailable c) ∨ explainTab g = .noFeatures ∨
          (∃ xs, explainTab g = .table xs)) := by
  refine ⟨fun e => rfl, ?_, fun e => rfl, fun e => rfl, ?_, fun e => rfl, ?_, ?_⟩
  · intro st b h
    simp [analyzeTab, analyzeBody, h]
  · intro st b h
    simp [explainTab, explainBody, h]
  · intro g
    cases h : analyzeTab g with
    | metrics a b c d => exact Or.inr ⟨a, b, c, d, rfl⟩
    | unavailable c => exact Or.inl ⟨c, rfl⟩
  · intro g
    cases h : explainTab g with
    | table xs => exact Or.inr (Or.inr ⟨xs, rfl⟩)
    | noFeatures => exact Or.inr (Or.inl rfl)
    | unavailable c => exact Or.inl ⟨c, rfl⟩

/-- Claim C8, witness: each collapse rule at a concrete fetch result. -/
theorem c8_analytics_collapse_never_raise_witness :
    analyzeTab (.exn "connection refused")
      = .unavailable "Analysis unavailable: connection refused" ∧
    analyzeTab (.resp 503 (.error "x")) = .unavailable "Analysis service not available: 503" ∧
    analyzeTab (.resp 200 (.error "Expecting value"))
      = .unavailable "Analysis unavailable: Expecting value" ∧
    explainTab (.resp 404 (.ok .jnull))
      = .unavailable "Explainability endpoint returned: 404" ∧
    explainTab (.resp 200 (.error "Expecting value"))
      = .unavailable "Explainability unavailable: Expecting value" :=
  ⟨c8_analytics_collapse_never_raise.1 "connection refused",
   (c8_analytics_collapse_never_raise.2.1 503 (.error "x") (by decide)).trans rfl,
   c8_analytics_collapse_never_raise.2.2.1 "Expecting value",
   (c8_analytics_collapse_never_raise.2.2.2.2.1 404 (.ok .jnull) (by decide)).trans rfl,
   c8_analytics_collapse_never_raise.2.2.2.2.2.1 "Expecting value"⟩

/-- Claim C9, counterexample: the education selectbox offers — and the
payload sends — the string "High School", which is not one of the enum value
spellings the claim states (`specEducationNames`); so a form-built input need
not satisfy the claimed education domain. -/
theorem c9_counterexample :
    formProducible ⟨28, "High School", "Software Engineer", 40, "Male", "Single"⟩ = true ∧
    specEducationNames.contains "High School" = false ∧
    (payload ⟨28, "High School", "Software Engineer", 40, "Male", "Single"⟩).lookup "education"
      = some (.jstr "High School") :=
  ⟨by decide, by decide, rfl⟩

/-- Claim C9 (amended): every form-producible input has integer age in 17-80,
integer hours in 10-100, gender and marital status exactly as the claim
spells them, and education drawn from the selectbox's literal options
"High School", "Bachelor’s", "Master’s", "PhD", "Other" (not the claim's
HighSchool/Bachelors/Masters spellings); each chosen string is sent
verbatim. -/
theorem c9_amended_form_domains (f : FormState) (h : formProducible f = true) :
    (17 ≤ f.age ∧ f.age ≤ 80) ∧
    (10 ≤ f.hours_per_week ∧ f.hours_per_week ≤ 100) ∧
    f.education ∈ educationOptions ∧
    f.gender ∈ genderOptions ∧
    f.marital_status ∈ maritalOptions ∧
    (payload f).lookup "education" = some (.jstr f.education) ∧
    (payload f).lookup "gender" = some (.jstr f.gender) ∧
    (payload f).lookup "marital_status" = some (.jstr f.marital_status) := by
  simp only [formProducible, Bool.and_eq_true, decide_eq_true_eq] at h
  obtain ⟨⟨⟨⟨⟨⟨h1, h2⟩, h3⟩, h4⟩, h5⟩, h6⟩, h7⟩ := h
  exact ⟨⟨h1, h2⟩, ⟨h4, h5⟩, h3, h6, h7, rfl, rfl, rfl⟩

/-- Claim C9 (amended), witness: the default-like form choices. -/
theorem c9_amended_form_domains_witness :
    ((17 : Int) ≤ 28 ∧ (28 : Int) ≤ 80) ∧
    ((10 : Int) ≤ 40 ∧ (40 : Int) ≤ 100) ∧
    "High School" ∈ educationOptions ∧
    "Male" ∈ genderOptions ∧
    "Single" ∈ maritalOptions ∧
    (payload ⟨28, "High School", "Software Engineer", 40, "Male", "Single"⟩).lookup "education"
      = some (.jstr "High School") ∧
    (payload ⟨28, "High School", "Software Engineer", 40, "Male", "Single"⟩).lookup "gender"
      = some (.jstr "Male") ∧
    (payload ⟨28, "High School", "Software Engineer", 40, "Male", "Single"⟩).lookup
        "marital_status"
      = some (.jstr "Single") :=
  c9_amended_form_domains ⟨28, "High School", "Software Engineer", 40, "Male", "Single"⟩
    (by decide)

/-- Claim C10: a 200 response from /analyze whose body is an object lacking
`summary` renders the metrics with every field defaulted to zero, and a
summary object lacking the salary fields defaults just those — tolerant
decoding, not the unavailable state. -/
theorem c10_tolerant_summary_defaults :
    (∀ fs : List (String × Json), fs.lookup "summary" = none →
      analyzeTab (.resp 200 (.ok (.jobj fs))) = .metrics 0 0 0 (.jnum 0)) ∧
    (∀ q : Rat,
      analyzeTab (.resp 200 (.ok (.jobj [("summary", .jobj [("record_count", .jnum q)])])))
        = .metrics q 0 0 (.jnum 0)) := by
  constructor
  · intro fs h
    simp [analyzeTab, analyzeBody, pyGet, h, pyFormatNum, except_bind_ok, except_map_ok]
  · intro q
    rfl

/-- Claim C10, witness: a body without `summary`, and a summary holding only
`record_count`. -/
theorem c10_tolerant_summary_defaults_witness :
    analyzeTab (.resp 200 (.ok (.jobj [("rows", .jnum 3)]))) = .metrics 0 0 0 (.jnum 0) ∧
    analyzeTab (.resp 200 (.ok (.jobj [("summary", .jobj [("record_count", .jnum 1200)])])))
      = .metrics 1200 0 0 (.jnum 0) :=
  ⟨c10_tolerant_summary_defaults.1 [("rows", .jnum 3)] rfl,
   c10_tolerant_summary_defaults.2 1200⟩

end PaySmart
